import Mathlib

/-
Verification of the shell-sage request/response normalization layer.

The Python source is embedded shallowly: every definition below mirrors a
function or class of the repository (file and symbol named in its comment).
Machine-level effects (file reads, environment lookups, network dispatch)
are modelled by explicit state arguments and effect traces.
-/

namespace ShellSage

/-! Python string helpers.  Python str.strip removes leading and trailing
whitespace characters; pyIsSpace is the Python whitespace predicate. -/

def pyIsSpace (c : Char) : Bool :=
  c = ' ' || c = '\t' || c = '\n' || c = '\r' || c = '\x0b' || c = '\x0c'

def pyStrip (s : String) : String :=
  String.mk (((s.data.dropWhile pyIsSpace).reverse.dropWhile pyIsSpace).reverse)

/-! Content blocks of an anthropic response (models/claude/utils.py).
A response content sequence holds heterogeneous typed objects: TextBlock
(isText), ToolUseBlock (no text attribute), some other object that happens
to expose a text attribute, or any other object.  strOf models the Python
generic string form str(obj). -/

inductive ContentBlock where
  | text (t : String)
  | toolUse (id name : String)
  | withText (t : String) (repr : String)
  | other (repr : String)
deriving DecidableEq, Repr

def ContentBlock.isText : ContentBlock → Bool
  | .text _ => true
  | _ => false

def ContentBlock.hasTextAttr : ContentBlock → Bool
  | .text _ => true
  | .withText _ _ => true
  | _ => false

def ContentBlock.textOf : ContentBlock → String
  | .text t => t
  | .withText t _ => t
  | _ => ""

def ContentBlock.strOf : ContentBlock → String
  | .text t => "TextBlock(text=" ++ t ++ ")"
  | .toolUse i n => "ToolUseBlock(id=" ++ i ++ ", name=" ++ n ++ ")"
  | .withText _ r => r
  | .other r => r

structure PyResponse where
  content : List ContentBlock
deriving DecidableEq, Repr

/-- Embeds find_block (models/claude/utils.py lines 75-86): first content
block that is an instance of TextBlock, none if absent. -/
def find_block (r : PyResponse) : Option ContentBlock :=
  r.content.find? ContentBlock.isText

/-- Embeds the return expression of contents: blk.text.strip() when the
block has a text attribute, str(blk) otherwise. -/
def renderBlock (b : ContentBlock) : String :=
  if b.hasTextAttr then pyStrip b.textOf else b.strOf

/-- Embeds contents (models/claude/utils.py lines 88-100).  When no text
block exists and the content list is non-empty the first element is used;
when the content list is empty blk stays None and the function returns
str(None), the string "None". -/
def contents (r : PyResponse) : String :=
  match find_block r with
  | some b => renderBlock b
  | none =>
    match r.content.head? with
    | some b => renderBlock b
    | none => "None"

/-! Usage (models/claude/types.py lines 39-81).  All four counters carry a
non-negativity constraint (pydantic Field ge 0), hence Nat fields. -/

structure Usage where
  input_tokens : Nat
  output_tokens : Nat
  cache_creation_input_tokens : Nat
  cache_read_input_tokens : Nat
deriving DecidableEq, Repr

/-- Embeds Usage.total (types.py lines 46-54). -/
def Usage.total (u : Usage) : Nat :=
  u.input_tokens + u.output_tokens +
    u.cache_creation_input_tokens + u.cache_read_input_tokens

/-- Embeds Usage.__add__ (types.py lines 74-81): field-wise sum. -/
def Usage.add (a b : Usage) : Usage :=
  { input_tokens := a.input_tokens + b.input_tokens
    output_tokens := a.output_tokens + b.output_tokens
    cache_creation_input_tokens :=
      a.cache_creation_input_tokens + b.cache_creation_input_tokens
    cache_read_input_tokens :=
      a.cache_read_input_tokens + b.cache_read_input_tokens }

/-! Credential store (config.py lines 22-37).  The state of the credentials
file as load_api_key observes it: missing (exists() is false), unreadable
(open raises OSError), invalidJson (json.load raises JSONDecodeError), or a
parsed JSON object of string fields. -/

inductive FileState where
  | missing
  | unreadable
  | invalidJson
  | validJson (obj : List (String × String))
deriving DecidableEq, Repr

/-- Embeds load_api_key (config.py lines 22-37): every failing read path is
caught and resolved to None; a parsed object yields config.get of the
anthropic_api_key field. -/
def load_api_key (fs : FileState) : Option String :=
  match fs with
  | .missing => none
  | .unreadable => none
  | .invalidJson => none
  | .validJson obj => obj.lookup "anthropic_api_key"

/-! Chat request validation (models/claude/types.py lines 83-115). -/

inductive ContentPart where
  | text (t : String)
  | image (mediaType : String) (data : String)
deriving DecidableEq, Repr

/-- Embeds the content field of ChatMessage (types.py line 86): either a
plain string or an ordered list of typed part dicts. -/
inductive MessageContent where
  | str (s : String)
  | parts (l : List ContentPart)
deriving DecidableEq, Repr

/-- Embeds ChatMessage (types.py lines 83-92) before validation; the same
shape also models the plain message dicts built by mk_msg. -/
structure ChatMessage where
  role : String
  content : MessageContent
deriving DecidableEq, Repr

/-- Embeds the Literal role annotation of ChatMessage (types.py line 85). -/
def validRole (r : String) : Bool :=
  r = "user" || r = "assistant" || r = "system"

/-- Embeds ChatMessage.validate_content (types.py lines 88-92): a string
content that is empty after stripping is rejected; list content passes. -/
def validContent : MessageContent → Bool
  | .str s => !(pyStrip s = "")
  | .parts _ => true

def validMessage (m : ChatMessage) : Bool :=
  validRole m.role && validContent m.content

/-- Embeds ToolChoice (types.py lines 7-31). -/
structure ToolChoice where
  type : String
  name : Option String
deriving DecidableEq, Repr

/-- Embeds ToolChoice.validate_type (types.py lines 26-31). -/
def validToolChoiceType (tc : ToolChoice) : Bool :=
  tc.type = "tool" || tc.type = "any" || tc.type = "auto"

/-- Models one tool declaration dict from the tools list of ChatRequest
(types.py line 101); anthropic tool dicts carry a name and description. -/
structure ToolDecl where
  name : String
  description : String
deriving DecidableEq, Repr

structure ChatRequest where
  model : String
  messages : List ChatMessage
  system : String
  temperature : Rat
  max_tokens : Int
  tools : Option (List ToolDecl)
  tool_choice : Option ToolChoice
  stream : Bool
deriving DecidableEq, Repr

/-- Embeds pydantic validation of ChatRequest (types.py lines 94-115):
each message role and content is validated, temperature must satisfy
0 <= t <= 1 (Field bounds and validate_temperature), max_tokens must not be
negative (Field bound and validate_max_tokens), and any ToolChoice present
must carry a valid type tag.  No validator relates tool_choice to tools. -/
def validateChatRequest (model : String) (messages : List ChatMessage)
    (system : String) (temperature : Rat) (max_tokens : Int)
    (tools : Option (List ToolDecl)) (tool_choice : Option ToolChoice)
    (stream : Bool) : Except String ChatRequest :=
  if messages.all validMessage = false then
    .error "content cannot be empty string"
  else if temperature < 0 ∨ 1 < temperature then
    .error "temperature must be between 0 and 1"
  else if max_tokens < 0 then
    .error "max_tokens must be positive"
  else if (tool_choice.map validToolChoiceType).getD true = false then
    .error "type must be one of tool, any, auto"
  else
    .ok { model := model, messages := messages, system := system,
          temperature := temperature, max_tokens := max_tokens,
          tools := tools, tool_choice := tool_choice, stream := stream }

def exceptIsOk {ε α : Type} : Except ε α → Bool
  | .ok _ => true
  | .error _ => false

/-! Client construction and dispatch (models/claude/client.py, models.py). -/

/-- Embeds MODEL_TYPES (models/claude/models.py lines 4-9). -/
def MODEL_TYPES : List (String × String) :=
  [("claude-3-opus-20240229", "opus"),
   ("claude-3-5-sonnet-20241022", "sonnet"),
   ("claude-3-haiku-20240307", "haiku-3"),
   ("claude-3-5-haiku-20241022", "haiku-3-5")]

/-- Embeds TEXT_ONLY_MODELS (models/claude/models.py line 18). -/
def TEXT_ONLY_MODELS : List String := ["claude-3-5-haiku-20241022"]

inductive InitError where
  | invalidModel
  | missingKey
deriving DecidableEq, Repr

/-- Embeds the Python expression a or b on strings: an empty or absent
left operand falls through to the right operand. -/
def orKey : Option String → Option String → Option String
  | some s, b => if s = "" then b else some s
  | none, b => b

structure ClientState where
  model : String
  api_key : String
  text_only : Bool
  usage_log : Option (List Usage)
deriving DecidableEq, Repr

/-- Embeds Client.__init__ (models/claude/client.py lines 20-68): the model
identifier is checked against MODEL_TYPES first; then the API key is
resolved from the explicit argument, the environment variable, and the
credential store in that order; a missing key is an error.  No step
performs any network communication. -/
def Client.init (model : String) (api_key env_key : Option String)
    (stored : FileState) (log_usage : Bool) : Except InitError ClientState :=
  if (MODEL_TYPES.lookup model).isNone then
    .error .invalidModel
  else
    match orKey api_key (orKey env_key (load_api_key stored)) with
    | none => .error .missingKey
    | some k =>
      if k = "" then .error .missingKey
      else
        .ok { model := model, api_key := k,
              text_only := TEXT_ONLY_MODELS.contains model,
              usage_log := if log_usage then some [] else none }

inductive Effect where
  | networkCall
deriving DecidableEq, Repr

inductive SageError where
  | init (e : InitError)
  | validation (e : String)
deriving DecidableEq, Repr

/-- Embeds the construction-then-dispatch pipeline: Client.__init__
followed by Client.get_completion (client.py lines 70-99), which validates
a ChatRequest and only then reaches self.client.messages.create, the sole
network-touching step, recorded here as a networkCall effect.  The provider
argument abstracts the anthropic SDK response. -/
def runCompletion (provider : ChatRequest → PyResponse) (model : String)
    (api_key env_key : Option String) (stored : FileState) (log_usage : Bool)
    (messages : List ChatMessage) (system : String) (temperature : Rat)
    (max_tokens : Int) (tools : Option (List ToolDecl))
    (tool_choice : Option ToolChoice) (stream : Bool) :
    Except SageError PyResponse × List Effect :=
  match Client.init model api_key env_key stored log_usage with
  | .error e => (.error (.init e), [])
  | .ok cl =>
    match validateChatRequest cl.model messages system temperature
        max_tokens tools tool_choice stream with
    | .error e => (.error (.validation e), [])
    | .ok req => (.ok (provider req), [.networkCall])

/-! Message building (core.py lines 27-46). -/

structure SimpleMsg where
  role : String
  content : String
deriving DecidableEq, Repr

/-- Embeds create_messages (core.py lines 27-46): rejects an empty query or
system prompt (Python falsiness of the empty string), otherwise returns the
system entry followed by the user entry. -/
def create_messages (query : String) (system_prompt : String) :
    Except String (List SimpleMsg) :=
  if query = "" ∨ system_prompt = "" then
    .error "Query and system prompt cannot be empty"
  else
    .ok [{ role := "system", content := system_prompt },
         { role := "user", content := query }]

/-! Context collection (core.py lines 128-140). -/

/-- Embeds the tmux-context branch of main (core.py lines 132-133): the
walrus condition is Python truthiness, so both None and the empty string
contribute nothing. -/
def historyPart : Option String → List String
  | none => []
  | some h =>
    if h = "" then []
    else ["<terminal_history>\n" ++ h ++ "\n</terminal_history>"]

/-- Embeds the stdin branch of main (core.py lines 136-137): when stdin is
not a tty its full text is wrapped, even when empty; note the source puts
no newline before the closing context tag. -/
def contextPart : Option String → List String
  | none => []
  | some s => ["<context>\n" ++ s ++ "</context>"]

/-- Embeds str.join with a newline separator. -/
def joinNl : List String → String
  | [] => ""
  | [s] => s
  | s :: t :: rest => s ++ "\n" ++ joinNl (t :: rest)

/-- Embeds the prompt assembly of main (core.py line 140): history part,
context part, then the query tag, joined by newlines. -/
def buildPrompt (history stdinText : Option String) (query : String) : String :=
  joinNl (historyPart history ++ contextPart stdinText ++
    ["<query>\n" ++ query ++ "\n</query>"])

/-! Message formatting (models/claude/utils.py lines 102-208). -/

def b64chars : List Char :=
  "ABCDEFGHIJKLMNOPQRSTUVWXYZabcdefghijklmnopqrstuvwxyz0123456789+/".data

def b64char (n : Nat) : Char := b64chars.getD n 'A'

/-- Embeds base64.b64encode over a byte list (standard alphabet with
padding), as used by mk_msg for image data. -/
def b64encode : List Nat → String
  | [] => ""
  | [a] =>
    String.mk [b64char (a / 4 % 64), b64char (a % 4 * 16), '=', '=']
  | [a, b] =>
    String.mk [b64char (a / 4 % 64), b64char (a % 4 * 16 + b / 16 % 16),
      b64char (b % 16 * 4), '=']
  | a :: b :: c :: rest =>
    String.mk [b64char (a / 4 % 64), b64char (a % 4 * 16 + b / 16 % 16),
      b64char (b % 16 % 16 * 4 + c / 64), b64char (c % 64)] ++ b64encode rest

/-- Models one element of a list-shaped mk_msg input: a string or raw image
bytes (a Path input is read to its bytes before encoding). -/
inductive ItemInput where
  | str (s : String)
  | bytes (data : List Nat)
deriving DecidableEq, Repr

/-- Models the annotated input domain of mk_msg (utils.py line 102): a
string, raw image bytes or a Path to them, a list of such items, or an
already formatted message dict carrying a role key. -/
inductive MsgInput where
  | str (s : String)
  | bytes (data : List Nat)
  | items (l : List ItemInput)
  | dict (m : ChatMessage)
deriving DecidableEq, Repr

def MsgInput.isDict : MsgInput → Bool
  | .dict _ => true
  | _ => false

def formatItem : ItemInput → ContentPart
  | .str s => .text s
  | .bytes d => .image "image/jpeg" (b64encode d)

/-- Embeds mk_msg (utils.py lines 102-172): a dict with a role key is
returned as is; a list is formatted item by item; a string becomes a single
text part; bytes become a single base64 image part. -/
def mk_msg (content : MsgInput) (role : String) : ChatMessage :=
  match content with
  | .dict m => m
  | .items l => { role := role, content := .parts (l.map formatItem) }
  | .str s => { role := role, content := .parts [.text s] }
  | .bytes d =>
    { role := role, content := .parts [.image "image/jpeg" (b64encode d)] }

/-- Embeds the loop of mk_msgs (utils.py lines 191-199): every message but
the last is followed by an inserted empty assistant turn; the last message
is formatted alone. -/
def mk_msgs_core : List MsgInput → List ChatMessage
  | [] => []
  | [m] => [mk_msg m "user"]
  | m :: t :: rest =>
    mk_msg m "user" ::
      { role := "assistant", content := .parts [.text ""] } ::
        mk_msgs_core (t :: rest)

/-- Embeds mk_msgs (utils.py lines 174-208): an empty input list raises
ValueError; a non-empty prefill (Python truthiness) appends one final
assistant turn carrying the prefill text. -/
def mk_msgs (messages : List MsgInput) (prefill : String) :
    Except String (List ChatMessage) :=
  match messages with
  | [] => .error "Messages list cannot be empty"
  | _ :: _ =>
    .ok (mk_msgs_core messages ++
      (if prefill = "" then []
       else [{ role := "assistant", content := .parts [.text prefill] }]))

/-- Expected role pattern of mk_msgs_core on n non-dict inputs: user and
assistant turns strictly alternating, beginning and ending with user. -/
def altRoles : Nat → List String
  | 0 => []
  | 1 => ["user"]
  | n + 2 => "user" :: "assistant" :: altRoles (n + 1)

/-! Helper lemmas. -/

theorem find?_append_all_false {α : Type} (p : α → Bool) (pre l : List α)
    (h : ∀ b ∈ pre, p b = false) : (pre ++ l).find? p = l.find? p := by
  induction pre with
  | nil => rfl
  | cons a as ih =>
    have ha : p a = false := h a (List.mem_cons_self a as)
    rw [List.cons_append, List.find?_cons_of_neg _ (by simp [ha])]
    exact ih (fun b hb => h b (List.mem_cons_of_mem a hb))

theorem validate_isOk_characterization (model : String)
    (messages : List ChatMessage) (system : String) (temperature : Rat)
    (max_tokens : Int) (tools : Option (List ToolDecl))
    (tool_choice : Option ToolChoice) (stream : Bool) :
    exceptIsOk (validateChatRequest model messages system temperature
        max_tokens tools tool_choice stream) = true ↔
      (messages.all validMessage = true ∧ 0 ≤ temperature ∧ temperature ≤ 1 ∧
        0 ≤ max_tokens ∧
        (tool_choice.map validToolChoiceType).getD true = true) := by
  unfold validateChatRequest
  split_ifs with h1 h2 h3 h4
  · simp [exceptIsOk, h1]
  · simp only [exceptIsOk, Bool.false_eq_true, false_iff, not_and]
    intro _ ht0 ht1 _
    rcases h2 with h | h
    · exact absurd ht0 (not_le.mpr h)
    · exact absurd ht1 (not_le.mpr h)
  · simp only [exceptIsOk, Bool.false_eq_true, false_iff, not_and]
    intro _ _ _ hmt
    omega
  · simp [exceptIsOk, h4]
  · simp only [exceptIsOk, true_iff]
    push_neg at h2
    refine ⟨?_, h2.1, h2.2, by omega, ?_⟩
    · cases hb : messages.all validMessage with
      | false => exact absurd hb h1
      | true => rfl
    · cases hb : (tool_choice.map validToolChoiceType).getD true with
      | false => exact absurd hb h4
      | true => rfl

theorem mk_msg_role_of_not_dict (m : MsgInput)
    (h : MsgInput.isDict m = false) : (mk_msg m "user").role = "user" := by
  cases m
  case dict => simp [MsgInput.isDict] at h
  all_goals simp [mk_msg]

theorem mk_msgs_core_length (msgs : List MsgInput) (hne : msgs ≠ []) :
    (mk_msgs_core msgs).length = 2 * msgs.length - 1 := by
  induction msgs with
  | nil => exact absurd rfl hne
  | cons m rest ih =>
    cases rest with
    | nil => simp [mk_msgs_core]
    | cons b bs =>
      have hlen := ih (by simp)
      simp [mk_msgs_core] at hlen ⊢
      omega

theorem mk_msgs_core_roles (msgs : List MsgInput) (hne : msgs ≠ [])
    (hnd : ∀ m ∈ msgs, MsgInput.isDict m = false) :
    (mk_msgs_core msgs).map ChatMessage.role = altRoles msgs.length := by
  induction msgs with
  | nil => exact absurd rfl hne
  | cons m rest ih =>
    cases rest with
    | nil =>
      simp [mk_msgs_core, altRoles,
        mk_msg_role_of_not_dict m (hnd m (by simp))]
    | cons b bs =>
      have hih := ih (by simp) (fun x hx => hnd x (by simp [hx]))
      simp [mk_msgs_core, altRoles,
        mk_msg_role_of_not_dict m (hnd m (by simp))] at hih ⊢
      exact hih

theorem mk_msgs_core_assistant_filler (msgs : List MsgInput)
    (hnd : ∀ m ∈ msgs, MsgInput.isDict m = false) :
    ∀ d ∈ mk_msgs_core msgs, d.role = "assistant" →
      d.content = MessageContent.parts [ContentPart.text ""] := by
  induction msgs with
  | nil => intro d hd; simp [mk_msgs_core] at hd
  | cons m rest ih =>
    intro d hd hrole
    cases rest with
    | nil =>
      simp [mk_msgs_core] at hd
      subst hd
      rw [mk_msg_role_of_not_dict m (hnd m (by simp))] at hrole
      exact absurd hrole (by decide)
    | cons b bs =>
      simp [mk_msgs_core] at hd
      rcases hd with hd | hd | hd
      · subst hd
        rw [mk_msg_role_of_not_dict m (hnd m (by simp))] at hrole
        exact absurd hrole (by decide)
      · subst hd; rfl
      · exact ih (fun x hx => hnd x (by simp [hx])) d hd hrole

/-! Claim theorems. -/

/-- Claim C1: for every response whose content is non-empty, contents
returns the stripped text of the first part whose type is text; if no text
part exists it falls back to the first part, rendering its text field when
present and otherwise its generic string form; in particular, for the
content sequence toolUse followed by text " hi " it returns "hi". -/
theorem contents_first_text_block :
    (∀ (pre : List ContentBlock) (t : String) (rest : List ContentBlock),
      (∀ b ∈ pre, ContentBlock.isText b = false) →
      contents { content := pre ++ ContentBlock.text t :: rest } = pyStrip t)
    ∧ (∀ (b : ContentBlock) (bs : List ContentBlock),
      (∀ x ∈ b :: bs, ContentBlock.isText x = false) →
      contents { content := b :: bs } = renderBlock b)
    ∧ contents { content := [ContentBlock.toolUse "toolu_1" "get_time",
        ContentBlock.text " hi "] } = "hi" := by
  refine ⟨?_, ?_, by decide⟩
  · intro pre t rest h
    have hf : find_block { content := pre ++ ContentBlock.text t :: rest }
        = some (ContentBlock.text t) := by
      show (pre ++ ContentBlock.text t :: rest).find? ContentBlock.isText
        = some (ContentBlock.text t)
      rw [find?_append_all_false _ pre _ h]
      rfl
    simp [contents, hf, renderBlock, ContentBlock.hasTextAttr,
      ContentBlock.textOf]
  · intro b bs h
    have hf : find_block { content := b :: bs } = none := by
      show (b :: bs).find? ContentBlock.isText = none
      rw [List.find?_eq_none]
      intro x hx
      simp [h x hx]
    simp [contents, hf]

/-- Witness for C1 at the concrete input from the spec. -/
theorem contents_first_text_block_witness :
    contents { content := [ContentBlock.toolUse "toolu_1" "get_time",
      ContentBlock.text " hi "] } = "hi" :=
  (contents_first_text_block.1
    [ContentBlock.toolUse "toolu_1" "get_time"] " hi " [] (by decide)).trans
    (by decide)

/-- Claim C2 counterexample: on an empty content sequence, contents does
not signal any error condition; it returns the string None, the generic
string form of the absent block. -/
theorem contents_empty_returns_none_string :
    contents { content := [] } = "None" := rfl

/-- Claim C2 amended: contents never raises for any content sequence; an
empty sequence yields the string None, and a non-empty sequence is always
rendered from the found text block or, failing that, the first part. -/
theorem contents_never_raises :
    (∀ parts : List ContentBlock, parts = [] →
      contents { content := parts } = "None")
    ∧ (∀ (b : ContentBlock) (bs : List ContentBlock),
      contents { content := b :: bs } =
        renderBlock ((find_block { content := b :: bs }).getD b)) := by
  constructor
  · intro parts h
    subst h
    rfl
  · intro b bs
    cases hf : find_block { content := b :: bs } with
    | some x => simp [contents, hf]
    | none => simp [contents, hf]

/-- Witness for C2 amended at the empty content sequence. -/
theorem contents_never_raises_witness :
    contents { content := ([] : List ContentBlock) } = "None" :=
  contents_never_raises.1 [] rfl

/-- Claim C8: UsageRecord addition is field-wise sum over the four
non-negative counters, commutative and associative, and the total equals
the sum of the four counters (additionally total distributes over add). -/
theorem usage_add_comm_assoc_total :
    (∀ a b : Usage, Usage.add a b = Usage.add b a)
    ∧ (∀ a b c : Usage,
        Usage.add (Usage.add a b) c = Usage.add a (Usage.add b c))
    ∧ (∀ u : Usage, Usage.total u = u.input_tokens + u.output_tokens +
        u.cache_creation_input_tokens + u.cache_read_input_tokens)
    ∧ (∀ a b : Usage,
        Usage.total (Usage.add a b) = Usage.total a + Usage.total b) := by
  refine ⟨?_, ?_, ?_, ?_⟩
  · intro a b
    cases a
    cases b
    simp only [Usage.add, Usage.mk.injEq]
    omega
  · intro a b c
    cases a
    cases b
    cases c
    simp only [Usage.add, Usage.mk.injEq]
    omega
  · intro u
    rfl
  · intro a b
    cases a
    cases b
    simp only [Usage.add, Usage.total]
    omega

/-- Claim C9: every failing read of the credential store (missing file,
unreadable file, malformed JSON) makes load_api_key return none. -/
theorem load_api_key_failure_none :
    ∀ fs : FileState,
      fs = FileState.missing ∨ fs = FileState.unreadable ∨
        fs = FileState.invalidJson →
      load_api_key fs = none := by
  intro fs h
  rcases h with h | h | h <;> subst h <;> rfl

/-- Witness for C9 at the missing-file state. -/
theorem load_api_key_failure_witness :
    load_api_key FileState.missing = none :=
  load_api_key_failure_none FileState.missing (Or.inl rfl)

/-- Claim C3 counterexample: a ChatRequest whose tool_choice names the
tool x while the tools list declares only other_tool passes validation,
although x is absent from the declared tool names. -/
theorem tool_choice_absent_tool_accepted :
    exceptIsOk (validateChatRequest "claude-3-5-sonnet-20241022"
        [{ role := "user", content := MessageContent.str "hi" }] "" 0 4096
        (some [{ name := "other_tool", description := "d" }])
        (some { type := "tool", name := some "x" }) false) = true
    ∧ ¬ ("x" ∈ List.map ToolDecl.name
        [({ name := "other_tool", description := "d" } : ToolDecl)]) := by
  constructor
  · decide
  · decide

/-- Claim C3 amended: ChatRequest validation never compares tool_choice
against the tools list; acceptance depends exactly on message validity,
the temperature range, non-negative max_tokens, and the tool_choice type
tag, so a named tool_choice absent from tools is accepted whenever those
hold. -/
theorem validate_no_tool_membership_check :
    ∀ (model : String) (messages : List ChatMessage) (system : String)
      (temperature : Rat) (max_tokens : Int) (tools : Option (List ToolDecl))
      (tool_choice : Option ToolChoice) (stream : Bool),
      exceptIsOk (validateChatRequest model messages system temperature
          max_tokens tools tool_choice stream) = true ↔
        (messages.all validMessage = true ∧ 0 ≤ temperature ∧
          temperature ≤ 1 ∧ 0 ≤ max_tokens ∧
          (tool_choice.map validToolChoiceType).getD true = true) := by
  intro model messages system temperature max_tokens tools tool_choice stream
  exact validate_isOk_characterization model messages system temperature
    max_tokens tools tool_choice stream

/-- Claim C4: an unknown model identifier is rejected during client
construction, before the validation or dispatch stage runs, and the whole
pipeline performs no network effect at all on that path. -/
theorem unknown_model_rejected_no_network :
    ∀ (provider : ChatRequest → PyResponse) (model : String)
      (api_key env_key : Option String) (stored : FileState)
      (log_usage : Bool) (messages : List ChatMessage) (system : String)
      (temperature : Rat) (max_tokens : Int)
      (tools : Option (List ToolDecl)) (tool_choice : Option ToolChoice)
      (stream : Bool),
      MODEL_TYPES.lookup model = none →
      runCompletion provider model api_key env_key stored log_usage messages
          system temperature max_tokens tools tool_choice stream =
        (Except.error (SageError.init InitError.invalidModel), []) := by
  intro provider model api_key env_key stored log_usage messages system
    temperature max_tokens tools tool_choice stream h
  simp [runCompletion, Client.init, h]

/-- Witness for C4 at a model identifier outside MODEL_TYPES. -/
theorem unknown_model_rejected_witness :
    runCompletion (fun _ => { content := [] }) "gpt-4o" none none
        FileState.missing false [] "" 0 0 none none false =
      (Except.error (SageError.init InitError.invalidModel), []) :=
  unknown_model_rejected_no_network (fun _ => { content := [] }) "gpt-4o"
    none none FileState.missing false [] "" 0 0 none none false (by decide)

/-- Claim C5 counterexample: create_messages accepts an all-whitespace
query, returning the two-element message list instead of failing. -/
theorem create_messages_whitespace_accepted :
    create_messages " " "sys" =
      Except.ok [{ role := "system", content := "sys" },
        { role := "user", content := " " }] := rfl

/-- Claim C5 amended: create_messages fails exactly when the query or the
system prompt is the empty string; all-whitespace strings are accepted, and
on success the result is the system entry followed by the user entry. -/
theorem create_messages_empty_only :
    ∀ query system_prompt : String,
      (query = "" ∨ system_prompt = "" →
        create_messages query system_prompt =
          Except.error "Query and system prompt cannot be empty")
      ∧ (query ≠ "" → system_prompt ≠ "" →
        create_messages query system_prompt =
          Except.ok [{ role := "system", content := system_prompt },
            { role := "user", content := query }]) := by
  intro query system_prompt
  constructor
  · intro h
    unfold create_messages
    rw [if_pos h]
  · intro hq hs
    unfold create_messages
    rw [if_neg (by simp [hq, hs])]

/-- Witness for C5 amended at non-empty query and prompt. -/
theorem create_messages_empty_only_witness :
    create_messages "q" "s" =
      Except.ok [{ role := "system", content := "s" },
        { role := "user", content := "q" }] :=
  (create_messages_empty_only "q" "s").2 (by decide) (by decide)

/-- Claim C6: validation accepts a temperature t exactly when it lies in
the closed interval from 0 to 1: an accepted request implies the bound,
and any t outside the bound forces rejection whatever the other
parameters. -/
theorem validate_temperature_iff :
    ∀ (model : String) (messages : List ChatMessage) (system : String)
      (temperature : Rat) (max_tokens : Int)
      (tools : Option (List ToolDecl)) (tool_choice : Option ToolChoice)
      (stream : Bool),
      (exceptIsOk (validateChatRequest model messages system temperature
          max_tokens tools tool_choice stream) = true →
        0 ≤ temperature ∧ temperature ≤ 1)
      ∧ (¬ (0 ≤ temperature ∧ temperature ≤ 1) →
        exceptIsOk (validateChatRequest model messages system temperature
          max_tokens tools tool_choice stream) = false) := by
  intro model messages system temperature max_tokens tools tool_choice stream
  constructor
  · intro h
    have hc := (validate_isOk_characterization model messages system
      temperature max_tokens tools tool_choice stream).mp h
    exact ⟨hc.2.1, hc.2.2.1⟩
  · intro h
    by_cases hb : exceptIsOk (validateChatRequest model messages system
        temperature max_tokens tools tool_choice stream) = true
    · have hc := (validate_isOk_characterization model messages system
        temperature max_tokens tools tool_choice stream).mp hb
      exact absurd ⟨hc.2.1, hc.2.2.1⟩ h
    · exact Bool.eq_false_iff.mpr hb

/-- Witness for C6: temperature 2 is rejected. -/
theorem validate_temperature_witness :
    exceptIsOk (validateChatRequest "claude-3-5-sonnet-20241022"
        [{ role := "user", content := MessageContent.str "hi" }] "" 2 4096
        none none false) = false :=
  (validate_temperature_iff "claude-3-5-sonnet-20241022"
    [{ role := "user", content := MessageContent.str "hi" }] "" 2 4096
    none none false).2 (by decide)

/-- Claim C7: the prompt is assembled from the history tag, the context
tag and the query tag in that fixed order, joined by newlines, with an
absent source contributing no tag at all; with no history and no stdin the
result is exactly the query tag alone. -/
theorem buildPrompt_tag_order :
    (∀ q, buildPrompt none none q = "<query>\n" ++ q ++ "\n</query>")
    ∧ (∀ s q, buildPrompt none (some s) q =
        "<context>\n" ++ s ++ "</context>" ++ "\n" ++
          ("<query>\n" ++ q ++ "\n</query>"))
    ∧ (∀ h q, h ≠ "" → buildPrompt (some h) none q =
        "<terminal_history>\n" ++ h ++ "\n</terminal_history>" ++ "\n" ++
          ("<query>\n" ++ q ++ "\n</query>"))
    ∧ (∀ h s q, h ≠ "" → buildPrompt (some h) (some s) q =
        "<terminal_history>\n" ++ h ++ "\n</terminal_history>" ++ "\n" ++
          ("<context>\n" ++ s ++ "</context>" ++ "\n" ++
            ("<query>\n" ++ q ++ "\n</query>")))
    ∧ buildPrompt none none "x" = "<query>\nx\n</query>" := by
  refine ⟨?_, ?_, ?_, ?_, rfl⟩
  · intro q
    rfl
  · intro s q
    rfl
  · intro h q hne
    have hh : historyPart (some h) =
        ["<terminal_history>\n" ++ h ++ "\n</terminal_history>"] := by
      simp [historyPart, hne]
    unfold buildPrompt
    rw [hh]
    rfl
  · intro h s q hne
    have hh : historyPart (some h) =
        ["<terminal_history>\n" ++ h ++ "\n</terminal_history>"] := by
      simp [historyPart, hne]
    unfold buildPrompt
    rw [hh]
    rfl

/-- Witness for C7 with a non-empty history, stdin text and query. -/
theorem buildPrompt_tag_order_witness :
    buildPrompt (some "h1") (some "c") "x" =
      "<terminal_history>\nh1\n</terminal_history>\n<context>\nc</context>\n<query>\nx\n</query>" :=
  (buildPrompt_tag_order.2.2.2.1 "h1" "c" "x" (by decide)).trans (by decide)

/-- Claim C10 counterexample: a preformatted dict input keeps its own
role, so the output of mk_msgs can begin with an assistant turn instead of
a user turn. -/
theorem mk_msgs_dict_role_not_user :
    mk_msgs [MsgInput.dict ⟨"assistant", MessageContent.str "x"⟩] "" =
      Except.ok [⟨"assistant", MessageContent.str "x"⟩]
    ∧ ¬ ("assistant" = "user") := ⟨rfl, by decide⟩

/-- Claim C10 amended: an empty input list is an error; n inputs with
empty prefill give exactly 2n-1 messages; when no input is a preformatted
dict the roles strictly alternate user, assistant, ..., user and every
assistant turn is the inserted single empty text part; a non-empty prefill
appends exactly one final assistant turn carrying the prefill text. -/
theorem mk_msgs_shape :
    (∀ prefill, mk_msgs [] prefill =
      Except.error "Messages list cannot be empty")
    ∧ (∀ msgs out, msgs ≠ [] → mk_msgs msgs "" = Except.ok out →
        out.length = 2 * msgs.length - 1)
    ∧ (∀ msgs out, msgs ≠ [] → (∀ m ∈ msgs, MsgInput.isDict m = false) →
        mk_msgs msgs "" = Except.ok out →
        out.map ChatMessage.role = altRoles msgs.length
        ∧ ∀ d ∈ out, d.role = "assistant" →
            d.content = MessageContent.parts [ContentPart.text ""])
    ∧ (∀ msgs prefill out, msgs ≠ [] → prefill ≠ "" →
        mk_msgs msgs prefill = Except.ok out →
        ∃ front, mk_msgs msgs "" = Except.ok front ∧
          out = front ++
            [⟨"assistant", MessageContent.parts [ContentPart.text prefill]⟩]) := by
  refine ⟨?_, ?_, ?_, ?_⟩
  · intro prefill
    rfl
  · intro msgs out hne hok
    cases msgs with
    | nil => exact absurd rfl hne
    | cons m rest =>
      simp [mk_msgs] at hok
      subst hok
      exact mk_msgs_core_length (m :: rest) (by simp)
  · intro msgs out hne hnd hok
    cases msgs with
    | nil => exact absurd rfl hne
    | cons m rest =>
      simp [mk_msgs] at hok
      subst hok
      exact ⟨mk_msgs_core_roles (m :: rest) (by simp) hnd,
        mk_msgs_core_assistant_filler (m :: rest) hnd⟩
  · intro msgs prefill out hne hp hok
    cases msgs with
    | nil => exact absurd rfl hne
    | cons m rest =>
      refine ⟨mk_msgs_core (m :: rest), by simp [mk_msgs], ?_⟩
      simp [mk_msgs, hp] at hok
      exact hok.symm

/-- Witness for C10 amended: two string inputs yield three messages. -/
theorem mk_msgs_shape_witness :
    ([⟨"user", MessageContent.parts [ContentPart.text "a"]⟩,
      ⟨"assistant", MessageContent.parts [ContentPart.text ""]⟩,
      ⟨"user", MessageContent.parts [ContentPart.text "b"]⟩] :
        List ChatMessage).length = 2 * 2 - 1 :=
  mk_msgs_shape.2.1 [MsgInput.str "a", MsgInput.str "b"] _ (by simp) rfl

end ShellSage
